import Mathlib

/-!
Verification of the MaxScale server core (`server.cc`): server allocation and
monitor-credential validation, the per-thread persistent connection pool
(`get_persistent_dcb`), status-bit manipulation (`set_status`/`clear_status`),
the adaptive response-time sample-max logic (`response_time_add`), config
serialization (`create_server_config`/`serialize`) and backend version/type
detection (`VersionInfo::set`).

Machine integers are modelled as `Nat`/`Int`; C `double` arithmetic in
`response_time_add` is modelled over `ℚ` (exact values; the qualitative
branch behaviour coincides with IEEE doubles on all inputs used in the
theorems below); C strings are modelled as `String` or `List Char`.
-/

/-- Status bit constants. Modelled from the spec: HealthState is "a bitmask of
independent status flags (running, master, slave, synced/joined, maintenance,
was-master/stale, draining)". The numeric values live in
`include/maxscale/server.hh`, which is not part of the sampled source; only
that the flags are distinct single bits matters for the claims. -/
def SERVER_RUNNING : Nat := 1

/-- Master status bit (see `SERVER_RUNNING`). -/
def SERVER_MASTER : Nat := 2

/-- Slave status bit (see `SERVER_RUNNING`). -/
def SERVER_SLAVE : Nat := 4

/-- Synced/joined status bit (see `SERVER_RUNNING`). -/
def SERVER_JOINED : Nat := 8

/-- Maintenance status bit (see `SERVER_RUNNING`). -/
def SERVER_MAINT : Nat := 16

/-- Was-master/stale status bit (see `SERVER_RUNNING`). -/
def SERVER_WAS_MASTER : Nat := 32

/-- Draining status bit (see `SERVER_RUNNING`). -/
def SERVER_DRAINING : Nat := 64

/-- Shallow embedding of `careful_strcpy` (anonymous namespace of server.cc).
The C function copies at most `max_len` characters of `source` into the
fixed-size zero-padded array `dest` and zeroes any excess, so the C string
read back from the array afterwards is `source` truncated to `max_len`
characters; the previous contents `dest` only influence the zero padding,
never the resulting string value. -/
def careful_strcpy (dest : List Char) (max_len : Nat) (source : List Char) : List Char :=
  source.take max_len

/-- Shallow embedding of `Server::set_monitor_user`: rejects a user name
longer than the maximum (`MAX_MONUSER_LEN`, declared in server.hh and hence
taken as a parameter here), otherwise stores it via `careful_strcpy`.
Returns (rval, new stored monuser). -/
def set_monitor_user (max_monuser_len : Nat) (monuser : List Char)
    (username : List Char) : Bool × List Char :=
  if username.length ≤ max_monuser_len then
    (true, careful_strcpy monuser max_monuser_len username)
  else
    (false, monuser)

/-- Shallow embedding of `Server::set_monitor_password`: rejects a password
longer than the maximum (`MAX_MONPW_LEN`, declared in server.hh and hence
taken as a parameter here), otherwise stores it via `careful_strcpy`.
Returns (rval, new stored monpw). -/
def set_monitor_password (max_monpw_len : Nat) (monpw : List Char)
    (password : List Char) : Bool × List Char :=
  if password.length ≤ max_monpw_len then
    (true, careful_strcpy monpw max_monpw_len password)
  else
    (false, monpw)

/-- Parameters reaching `Server::server_alloc`. `monitoruser`/`monitorpw` are
the results of `params.get_string(CN_MONITORUSER)`/`(CN_MONITORPW)` (empty
list when the parameter is absent); `ssl_ok` abstracts the success of
`config_create_ssl`, `alloc_ok` the success of the `new`/`MXS_CALLOC`
allocations. -/
structure AllocParams where
  monitoruser : List Char
  monitorpw : List Char
  ssl_ok : Bool
  alloc_ok : Bool
  address : List Char
  port : Int
  extra_port : Int
  persistpoolmax : Nat
  persistmaxtime : Nat
  proxy_protocol : Bool
deriving DecidableEq

/-- The fields of a freshly allocated `Server` that `server_alloc` mutates
and that the claims mention. -/
structure ServerRec where
  monuser : List Char
  monpw : List Char
  address : List Char
  port : Int
  extra_port : Int
  persistpoolmax : Nat
  persistmaxtime : Nat
  proxy_protocol : Bool
  is_active : Bool
  status : Nat
deriving DecidableEq

/-- Shallow embedding of `Server::server_alloc`. The credential-pairing check
comes first and returns NULL (here `none`) before any object is created; then
SSL initialization and the allocations may fail; on success the fields are
populated, the server is marked active and running, and — only when a monitor
user was given — the credentials are stored through
`set_monitor_user`/`set_monitor_password` (whose return values the C code
ignores at this call site). -/
def server_alloc (max_address_len max_monuser_len max_monpw_len : Nat)
    (p : AllocParams) : Option ServerRec :=
  if p.monitoruser ≠ [] ∧ p.monitorpw = [] then none
  else if p.monitoruser = [] ∧ p.monitorpw ≠ [] then none
  else if ¬ p.ssl_ok then none
  else if ¬ p.alloc_ok then none
  else
    let base : ServerRec :=
      { monuser := []
        monpw := []
        address := careful_strcpy [] max_address_len p.address
        port := p.port
        extra_port := p.extra_port
        persistpoolmax := p.persistpoolmax
        persistmaxtime := p.persistmaxtime
        proxy_protocol := p.proxy_protocol
        is_active := true
        status := SERVER_RUNNING }
    if p.monitoruser ≠ [] then
      some { base with
             monuser := (set_monitor_user max_monuser_len base.monuser p.monitoruser).2
             monpw := (set_monitor_password max_monpw_len base.monpw p.monitorpw).2 }
    else
      some base

/-- A pooled backend connection (the DCB fields `get_persistent_dcb` reads).
`m_user`/`m_remote` are nullable C strings, hence `Option String`.
`idle_age` is the entry's idle age in seconds, read by the cleanup pass. -/
structure PoolEntry where
  m_user : Option String
  m_remote : Option String
  m_errhandle_called : Bool
  idle_age : Nat
deriving DecidableEq

/-- One thread's shard of a server's state as read and written by
`Server::get_persistent_dcb`: the bucket `persistent[id]`, the result of
`is_running()`, the server's protocol string (`dcb->m_server->protocol()` —
every entry of this server's pool points back at this server), the
`persistmaxtime` setting, and the statistics counters
`pool_stats.n_persistent` and `stats().n_current`. -/
structure PoolState where
  persistent : List PoolEntry
  running : Bool
  protocol : String
  persistmaxtime : Nat
  n_persistent : Int
  n_current : Int
deriving DecidableEq

/-- Modelled from the spec: `DCB::persistent_clean_count` (DCB code, not part
of the sampled source). Per the spec's sweep description it removes "entries
whose idle age exceeds `persistmaxtime` or whose error flag is set", so an
entry survives iff its error flag is unset and its idle age is at most
`persistmaxtime`. Statistic side effects of closing the evicted connections
happen inside the DCB code and are outside this model. -/
def surviveSweep (persistmaxtime : Nat) (d : PoolEntry) : Bool :=
  !d.m_errhandle_called && decide (d.idle_age ≤ persistmaxtime)

/-- The bucket after the cleanup pass that `get_persistent_dcb` runs first. -/
def cleaned_bucket (s : PoolState) : List PoolEntry :=
  s.persistent.filter (surviveSweep s.persistmaxtime)

/-- The match condition of the scan loop in `Server::get_persistent_dcb`, in
the C source's order: `dcb->m_user && dcb->m_remote && !ip.empty()
&& !dcb->m_dcb_errhandle_called && user == dcb->m_user && ip == dcb->m_remote
&& protocol == dcb->m_server->protocol()`. -/
def entry_matches (user ip protocol srv_protocol : String) (d : PoolEntry) : Bool :=
  d.m_user.isSome && d.m_remote.isSome && !(ip == "") && !d.m_errhandle_called
    && (some user == d.m_user) && (some ip == d.m_remote) && (protocol == srv_protocol)

/-- The match predicate of `get_persistent_dcb` on state `s`. -/
def fetch_match (s : PoolState) (user ip protocol : String) : PoolEntry → Bool :=
  entry_matches user ip protocol s.protocol

/-- The scan loop of `Server::get_persistent_dcb`: walks the bucket, unlinks
the first matching entry (the C code also frees and nulls its `m_user`
before returning it) and leaves the rest in order; when nothing matches the
bucket is unchanged. Returns (returned DCB, remaining bucket). -/
def scan_bucket (user ip protocol srv_protocol : String) :
    List PoolEntry → Option PoolEntry × List PoolEntry
  | [] => (none, [])
  | d :: rest =>
    if entry_matches user ip protocol srv_protocol d then
      (some { d with m_user := none }, rest)
    else
      let r := scan_bucket user ip protocol srv_protocol rest
      (r.1, d :: r.2)

/-- Shallow embedding of `Server::get_persistent_dcb`. Mirrors the C
short-circuit chain: nothing happens on an empty bucket; otherwise the
cleanup pass (`DCB::persistent_clean_count`, modelled by `cleaned_bucket`)
runs unconditionally, and only if the cleaned bucket is non-empty and the
server `is_running()` does the scan proceed; on a match the entry is
unlinked and returned with `n_persistent` decremented and `n_current`
incremented. -/
def get_persistent_dcb (s : PoolState) (user ip protocol : String) :
    Option PoolEntry × PoolState :=
  if s.persistent.isEmpty then (none, s)
  else if (cleaned_bucket s).isEmpty ∨ s.running = false then
    (none, { s with persistent := cleaned_bucket s })
  else
    match scan_bucket user ip protocol s.protocol (cleaned_bucket s) with
    | (some d, rest) =>
      (some d, { s with
                 persistent := rest
                 n_persistent := s.n_persistent - 1
                 n_current := s.n_current + 1 })
    | (none, _) => (none, { s with persistent := cleaned_bucket s })

/-- All ones in 64 bits: `~bit` in `m_status &= ~bit` complements within
`uint64_t`. -/
def MASK64 : Nat := 2 ^ 64 - 1

/-- The SERVER fields that `set_status`/`clear_status` touch: the `uint64_t`
status bitmask (a `Nat` kept below `2^64`) and the `master_err_is_logged`
flag. -/
structure ServerStatus where
  m_status : Nat
  master_err_is_logged : Bool
deriving DecidableEq

/-- Modelled from the spec: `is_master()` (declared in server.hh, outside the
sampled source) tests the master status flag of the HealthState bitmask. -/
def is_master (status : Nat) : Bool := status &&& SERVER_MASTER != 0

/-- Shallow embedding of `SERVER::set_status`: ORs the bit in, and when the
server is then master, clears the "error already logged" flag so the next
failure is reported. -/
def set_status (st : ServerStatus) (bit : Nat) : ServerStatus :=
  let new_status := st.m_status ||| bit
  { m_status := new_status
    master_err_is_logged :=
      if is_master new_status then false else st.master_err_is_logged }

/-- Shallow embedding of `SERVER::clear_status`: `m_status &= ~bit` and
nothing else. -/
def clear_status (st : ServerStatus) (bit : Nat) : ServerStatus :=
  { st with m_status := st.m_status &&& (MASK64 ^^^ bit) }

/-- The drift constant of `SERVER::response_time_add`. -/
def drift : ℚ := 11 / 10

/-- C-style conversion of a floating-point value to `int`: truncation toward
zero. -/
def double_to_int (q : ℚ) : Int := if 0 ≤ q then ⌊q⌋ else ⌈q⌉

/-- Shallow embedding of `SERVER::response_time_add`, which computes the new
`sample_max` of the response-time tracker from the current `sample_max`
(`current_max`), the tracker's current EMA (`m_response_time.average()`,
passed in as `ema` — the `EMAverage` class lives in maxbase, outside the
sampled source), the incoming batch average `ave` and the batch size
`num_samples`. Double arithmetic is modelled exactly over `ℚ`; in `ℚ`
division by zero yields `0`, so the theorems below assume `0 < ave`
(response-time averages are positive). The subsequent
`m_response_time.add(ave, num_samples)` EMA update is maxbase code and is
not modelled. -/
def response_time_add (current_max : Int) (ema ave : ℚ) (num_samples : Int) : Int :=
  if num_samples ≥ current_max then double_to_int ((num_samples : ℚ) * drift)
  else if ema / ave > 2 then double_to_int ((current_max : ℚ) * (1 / 2))
  else double_to_int ((current_max : ℚ) / drift)

/-- Shallow embedding of `Server::create_server_config`. The filesystem is a
map from path to file content. The file is opened with
`O_EXCL | O_CREAT | O_WRONLY`, which fails (returning false, filesystem
untouched) iff the path already exists; otherwise the file is created and
the generated `config` text written. A failed `dprintf` (`write_ok = false`)
is only logged — the function still closes the file (created, but without
the configuration text) and returns true. -/
def create_server_config (fs : String → Option String) (filename config : String)
    (write_ok : Bool) : Bool × (String → Option String) :=
  match fs filename with
  | some _ => (false, fs)
  | none =>
    (true, fun p => if p = filename then some (if write_ok then config else "") else fs p)

/-- Shallow embedding of `Server::serialize`: unlink any stale temp file
(failure with an errno other than ENOENT — modelled by the temp file
existing with `unlink_ok = false` — aborts with `rval` still false), write
the config to the temp file via `create_server_config`, then rename the temp
file over the final path (`rename_ok`); only a successful rename yields
true. -/
def serialize (fs : String → Option String) (final_filename temp_filename config : String)
    (unlink_ok write_ok rename_ok : Bool) : Bool × (String → Option String) :=
  if (fs temp_filename).isSome ∧ ¬ unlink_ok then
    (false, fs)
  else
    match create_server_config (fun p => if p = temp_filename then none else fs p)
        temp_filename config write_ok with
    | (false, fs2) => (false, fs2)
    | (true, fs2) =>
      if rename_ok then
        (true, fun p =>
          if p = final_filename then fs2 temp_filename
          else if p = temp_filename then none
          else fs2 p)
      else (false, fs2)

/-- The backend type detected by `Server::VersionInfo::set`. -/
inductive ServerType
  | MARIADB
  | MYSQL
  | CLUSTRIX
deriving DecidableEq

/-- Whether `needle` begins the list `hay` (character-exact). -/
def begins_with : List Char → List Char → Bool
  | [], _ => true
  | _ :: _, [] => false
  | n :: ns, h :: hs => n == h && begins_with ns hs

/-- Whether `needle` occurs as a contiguous sublist of `hay`. -/
def find_sub : List Char → List Char → Bool
  | [], needle => needle.isEmpty
  | c :: rest, needle => begins_with needle (c :: rest) || find_sub rest needle

/-- `strcasestr(hay, needle) != NULL`: case-insensitive substring search,
modelled by lowering both sides with `Char.toLower` and searching. -/
def strcasestr_found (hay needle : List Char) : Bool :=
  find_sub (hay.map Char.toLower) (needle.map Char.toLower)

/-- The type-detection part of `Server::VersionInfo::set`: a version string
containing "clustrix" (case-insensitively) gives CLUSTRIX, otherwise one
containing "mariadb" gives MARIADB, otherwise MYSQL. -/
def versionInfo_set_type (version_str : List Char) : ServerType :=
  if strcasestr_found version_str ("clustrix".toList) then ServerType.CLUSTRIX
  else if strcasestr_found version_str ("mariadb".toList) then ServerType.MARIADB
  else ServerType.MYSQL

/-- Fixture: a healthy pooled entry for "alice" from 10.1.1.1. -/
def entryA : PoolEntry :=
  { m_user := some "alice", m_remote := some "10.1.1.1"
    m_errhandle_called := false, idle_age := 3 }

/-- Fixture: a pooled entry whose stored peer address is the empty string. -/
def entryEmptyIp : PoolEntry :=
  { m_user := some "alice", m_remote := some ""
    m_errhandle_called := false, idle_age := 0 }

/-- Fixture: a running server whose bucket holds `entryA`. -/
def poolW : PoolState :=
  { persistent := [entryA], running := true, protocol := "mariadbbackend"
    persistmaxtime := 10, n_persistent := 1, n_current := 2 }

/-- Fixture: a running server whose bucket holds `entryEmptyIp`. -/
def poolCexC1 : PoolState :=
  { persistent := [entryEmptyIp], running := true, protocol := "mariadbbackend"
    persistmaxtime := 10, n_persistent := 1, n_current := 0 }

/-- Fixture: parameters with a monitor user but no monitor password. -/
def allocBad : AllocParams :=
  { monitoruser := "admin".toList, monitorpw := [], ssl_ok := true, alloc_ok := true
    address := "db1".toList, port := 3306, extra_port := 0
    persistpoolmax := 0, persistmaxtime := 0, proxy_protocol := false }

/-- Fixture: a filesystem in which the target config path already exists. -/
def fsP : String → Option String :=
  fun p => if p = "/etc/srv.cnf" then some "original contents" else none

/-- Fixture: a filesystem in which a stale temp file exists. -/
def fsTmp : String → Option String :=
  fun p => if p = "/etc/a.cnf.tmp" then some "stale" else none

theorem scan_bucket_eq (user ip protocol srv_protocol : String) (l : List PoolEntry) :
    scan_bucket user ip protocol srv_protocol l =
      ((l.find? (entry_matches user ip protocol srv_protocol)).map
          (fun d => { d with m_user := none }),
       l.eraseP (entry_matches user ip protocol srv_protocol)) := by
  induction l with
  | nil => rfl
  | cons d rest ih =>
    by_cases h : entry_matches user ip protocol srv_protocol d
    · simp [scan_bucket, h, List.find?_cons_of_pos, List.eraseP_cons_of_pos h]
    · simp [scan_bucket, h, ih, List.find?_cons_of_neg, List.eraseP_cons_of_neg,
        Bool.not_eq_true]

theorem create_server_config_of_exists (fs : String → Option String)
    (filename config : String) (write_ok : Bool) (h : (fs filename).isSome) :
    create_server_config fs filename config write_ok = (false, fs) := by
  obtain ⟨c, hc⟩ := Option.isSome_iff_exists.mp h
  simp [create_server_config, hc]

/-- C10: every call to `get_persistent_dcb` whose peer-address argument is the
empty string returns no pooled connection, regardless of the bucket's
contents — including entries whose stored peer address is itself empty —
because the scan's match condition requires `!ip.empty()`. -/
theorem claim_C10_empty_ip_never_matches (s : PoolState) (user protocol : String) :
    (get_persistent_dcb s user "" protocol).1 = none := by
  have hm : ∀ d, entry_matches user "" protocol s.protocol d = false := by
    intro d; simp [entry_matches]
  unfold get_persistent_dcb
  split
  · rfl
  · split
    · rfl
    · rw [scan_bucket_eq]
      have hf : (cleaned_bucket s).find? (entry_matches user "" protocol s.protocol) = none :=
        List.find?_eq_none.mpr (fun d _ => by simp [hm d])
      rw [hf]
      rfl

/-- C3: `server_alloc` rejects a parameter set in which exactly one of
monitor user and monitor password is non-empty, returning NULL before any
Server is created; a Server is produced only when both credentials are given
or neither is. -/
theorem claim_C3_credential_pairing (max_address_len max_monuser_len max_monpw_len : Nat)
    (p : AllocParams) :
    ((p.monitoruser ≠ [] ∧ p.monitorpw = []) ∨ (p.monitoruser = [] ∧ p.monitorpw ≠ []) →
      server_alloc max_address_len max_monuser_len max_monpw_len p = none)
    ∧ (∀ s : ServerRec, server_alloc max_address_len max_monuser_len max_monpw_len p = some s →
      (p.monitoruser = [] ↔ p.monitorpw = [])) := by
  constructor
  · rintro (h | h) <;> simp [server_alloc, h]
  · intro s hs
    by_cases h1 : p.monitoruser ≠ [] ∧ p.monitorpw = []
    · simp [server_alloc, h1] at hs
    · by_cases h2 : p.monitoruser = [] ∧ p.monitorpw ≠ []
      · simp [server_alloc, h1, h2] at hs
      · constructor <;> intro h <;> by_contra hc <;> tauto

/-- Witness for C3 at a concrete input: monitor user "admin" with empty
monitor password makes `server_alloc` fail. -/
theorem claim_C3_credential_pairing_witness :
    server_alloc 1024 512 512 allocBad = none :=
  (claim_C3_credential_pairing 1024 512 512 allocBad).1 (Or.inl ⟨by decide, rfl⟩)

/-- C4: `create_server_config` opens its target with `O_EXCL | O_CREAT`, so
when the path already exists as a file the call returns false and the
filesystem — in particular the original content of that path — is
unchanged. -/
theorem claim_C4_exclusive_create (fs : String → Option String)
    (filename config : String) (write_ok : Bool) (h : (fs filename).isSome) :
    create_server_config fs filename config write_ok = (false, fs) :=
  create_server_config_of_exists fs filename config write_ok h

/-- Witness for C4 at a concrete input: the path `/etc/srv.cnf` exists with
content "original contents", and writing fails leaving the filesystem (hence
that content) unchanged. -/
theorem claim_C4_exclusive_create_witness :
    fsP "/etc/srv.cnf" = some "original contents"
    ∧ create_server_config fsP "/etc/srv.cnf" "[server]\n" true = (false, fsP) :=
  ⟨rfl, claim_C4_exclusive_create fsP "/etc/srv.cnf" "[server]\n" true rfl⟩

/-- C6: `set_monitor_user` and `set_monitor_password` reject a string longer
than the maximum — returning false and leaving the stored value unchanged —
and store any string within the maximum, returning true. -/
theorem claim_C6_monitor_credential_length (max_len : Nat) (stored value : List Char) :
    (value.length > max_len →
      set_monitor_user max_len stored value = (false, stored)
      ∧ set_monitor_password max_len stored value = (false, stored))
    ∧ (value.length ≤ max_len →
      set_monitor_user max_len stored value = (true, value)
      ∧ set_monitor_password max_len stored value = (true, value)) := by
  constructor
  · intro h
    have h' : ¬ value.length ≤ max_len := by omega
    exact ⟨by simp [set_monitor_user, h'], by simp [set_monitor_password, h']⟩
  · intro h
    exact ⟨by simp [set_monitor_user, careful_strcpy, h, List.take_of_length_le h],
           by simp [set_monitor_password, careful_strcpy, h, List.take_of_length_le h]⟩

/-- Witness for C6 at concrete inputs: with maximum length 5, "toolong!" is
rejected leaving "old" in place, and "user" is stored. -/
theorem claim_C6_monitor_credential_length_witness :
    (set_monitor_user 5 "old".toList "toolong!".toList = (false, "old".toList)
      ∧ set_monitor_password 5 "old".toList "toolong!".toList = (false, "old".toList))
    ∧ (set_monitor_user 5 "old".toList "user".toList = (true, "user".toList)
      ∧ set_monitor_password 5 "old".toList "user".toList = (true, "user".toList)) :=
  ⟨(claim_C6_monitor_credential_length 5 "old".toList "toolong!".toList).1 (by decide),
   (claim_C6_monitor_credential_length 5 "old".toList "user".toList).2 (by decide)⟩

/-- C9: `VersionInfo::set` detects the backend type by case-insensitive
substring match — "clustrix" yields CLUSTRIX, otherwise "mariadb" yields
MARIADB, otherwise MYSQL — and in particular "5.5.5-10.3.1-MariaDB" gives
MARIADB, "5.7.21-Clustrix" gives CLUSTRIX, and "5.7.21" gives MYSQL. -/
theorem claim_C9_version_type_detection :
    (∀ vs : List Char,
      (versionInfo_set_type vs = ServerType.CLUSTRIX ↔
        strcasestr_found vs ("clustrix".toList) = true)
      ∧ (versionInfo_set_type vs = ServerType.MARIADB ↔
        (strcasestr_found vs ("clustrix".toList) = false
          ∧ strcasestr_found vs ("mariadb".toList) = true))
      ∧ (versionInfo_set_type vs = ServerType.MYSQL ↔
        (strcasestr_found vs ("clustrix".toList) = false
          ∧ strcasestr_found vs ("mariadb".toList) = false)))
    ∧ versionInfo_set_type ("5.5.5-10.3.1-MariaDB".toList) = ServerType.MARIADB
    ∧ versionInfo_set_type ("5.7.21-Clustrix".toList) = ServerType.CLUSTRIX
    ∧ versionInfo_set_type ("5.7.21".toList) = ServerType.MYSQL := by
  refine ⟨fun vs => ?_, by decide, by decide, by decide⟩
  unfold versionInfo_set_type
  by_cases hc : strcasestr_found vs ("clustrix".toList) = true
  · rw [if_pos hc]
    exact ⟨⟨fun _ => hc, fun _ => rfl⟩,
           ⟨fun h => ServerType.noConfusion h,
            fun h => absurd (h.1 ▸ hc) Bool.false_ne_true⟩,
           ⟨fun h => ServerType.noConfusion h,
            fun h => absurd (h.1 ▸ hc) Bool.false_ne_true⟩⟩
  · rw [if_neg hc]
    rw [Bool.not_eq_true] at hc
    by_cases hm : strcasestr_found vs ("mariadb".toList) = true
    · rw [if_pos hm]
      exact ⟨⟨fun h => ServerType.noConfusion h,
              fun h => absurd (hc ▸ h) Bool.false_ne_true⟩,
             ⟨fun _ => ⟨hc, hm⟩, fun _ => rfl⟩,
             ⟨fun h => ServerType.noConfusion h,
              fun h => absurd (h.2 ▸ hm) Bool.false_ne_true⟩⟩
    · rw [if_neg hm]
      rw [Bool.not_eq_true] at hm
      exact ⟨⟨fun h => ServerType.noConfusion h,
              fun h => absurd (hc ▸ h) Bool.false_ne_true⟩,
             ⟨fun h => ServerType.noConfusion h,
              fun h => absurd (hm ▸ h.2) Bool.false_ne_true⟩,
             ⟨fun _ => ⟨hc, hm⟩, fun _ => rfl⟩⟩

theorem create_server_config_of_none (fs : String → Option String)
    (filename config : String) (write_ok : Bool) (hn : fs filename = none) :
    create_server_config fs filename config write_ok =
      (true, fun p => if p = filename then some (if write_ok then config else "") else fs p) := by
  unfold create_server_config
  rw [hn]

/-- C1 counterexample: a running server whose bucket holds an entry whose
stored user ("alice"), stored peer address ("", equal to the empty
peer-address argument) and protocol all exactly match the arguments, with the
error flag unset — yet `get_persistent_dcb` returns no connection, because
the scan additionally requires the peer-address argument to be non-empty. -/
theorem claim_C1_counterexample :
    poolCexC1.running = true
    ∧ poolCexC1.persistent.any (fun d =>
        d.m_user == some "alice" && d.m_remote == some ""
          && !d.m_errhandle_called && ("mariadbbackend" == poolCexC1.protocol)) = true
    ∧ (get_persistent_dcb poolCexC1 "alice" "" "mariadbbackend").1 = none := by
  refine ⟨rfl, by decide, by decide⟩

/-- C1 (amended): on a running server, when the calling thread's bucket —
after the cleanup pass, which evicts errored and over-age entries — contains
an entry matching the scan condition (stored user and peer address present
and equal to the arguments, peer-address argument non-empty, error flag
unset, protocol argument equal to the server's protocol), `get_persistent_dcb`
removes the first such entry from the cleaned bucket and returns it (with its
user field freed), decrementing `n_persistent` by one and incrementing
`n_current` by one; when the server is not running or no cleaned entry
matches, it returns none and the bucket is exactly the cleaned bucket, with
counters untouched. -/
theorem claim_C1_fetch (s : PoolState) (user ip protocol : String) :
    (s.running = true →
      (cleaned_bucket s).any (fetch_match s user ip protocol) = true →
      get_persistent_dcb s user ip protocol =
        (((cleaned_bucket s).find? (fetch_match s user ip protocol)).map
            (fun d => { d with m_user := none }),
         { s with
           persistent := (cleaned_bucket s).eraseP (fetch_match s user ip protocol)
           n_persistent := s.n_persistent - 1
           n_current := s.n_current + 1 }))
    ∧ ((s.running = false ∨ (cleaned_bucket s).any (fetch_match s user ip protocol) = false) →
      get_persistent_dcb s user ip protocol =
        (none, { s with persistent := cleaned_bucket s })) := by
  constructor
  · intro hrun hany
    obtain ⟨d, hd, hmd⟩ := List.any_eq_true.mp hany
    have hne : ¬ (cleaned_bucket s).isEmpty := by
      cases h : cleaned_bucket s with
      | nil => rw [h] at hd; cases hd
      | cons a l => simp [h]
    have hpne : ¬ s.persistent.isEmpty := by
      intro h
      have h0 : s.persistent = [] := List.isEmpty_iff.mp h
      have hcl : cleaned_bucket s = [] := by simp [cleaned_bucket, h0]
      rw [hcl] at hd; cases hd
    have hfind : ((cleaned_bucket s).find? (fetch_match s user ip protocol)).isSome :=
      List.find?_isSome.mpr ⟨d, hd, hmd⟩
    obtain ⟨e, he⟩ := Option.isSome_iff_exists.mp hfind
    unfold get_persistent_dcb
    simp only [fetch_match] at he ⊢
    rw [if_neg hpne, if_neg (not_or.mpr ⟨hne, by simp [hrun]⟩), scan_bucket_eq, he]
    rfl
  · intro h
    unfold get_persistent_dcb
    by_cases hpe : s.persistent.isEmpty
    · rw [if_pos hpe]
      have h0 : s.persistent = [] := List.isEmpty_iff.mp hpe
      cases s
      subst h0
      rfl
    · rw [if_neg hpe]
      by_cases hco : (cleaned_bucket s).isEmpty ∨ s.running = false
      · rw [if_pos hco]
      · rw [if_neg hco]
        have hrun : ¬ s.running = false := fun hr => hco (Or.inr hr)
        have hany : (cleaned_bucket s).any (fetch_match s user ip protocol) = false := by
          cases h with
          | inl hl => exact absurd hl hrun
          | inr hr => exact hr
        have hfind : (cleaned_bucket s).find? (fetch_match s user ip protocol) = none :=
          List.find?_eq_none.mpr (List.any_eq_false.mp hany)
        simp only [fetch_match] at hfind ⊢
        rw [scan_bucket_eq, hfind]
        rfl

/-- Witness for C1 at a concrete input: fetching ("alice", "10.1.1.1",
"mariadbbackend") from a running server whose bucket holds exactly that entry
returns the entry with its user field cleared, empties the bucket, and
updates the counters. -/
theorem claim_C1_fetch_witness :
    get_persistent_dcb poolW "alice" "10.1.1.1" "mariadbbackend" =
      (some { m_user := none, m_remote := some "10.1.1.1"
              m_errhandle_called := false, idle_age := 3 },
       { poolW with persistent := [], n_persistent := 0, n_current := 3 }) := by
  have h := (claim_C1_fetch poolW "alice" "10.1.1.1" "mariadbbackend").1 rfl (by decide)
  rw [h]
  decide

/-- C7 counterexample: with the running bit already set in the status,
setting and then clearing that same bit yields status 0, not the original
status 1 — the round-trip does not restore a bit that was already set. -/
theorem claim_C7_counterexample :
    (clear_status (set_status ⟨SERVER_RUNNING, false⟩ SERVER_RUNNING) SERVER_RUNNING).m_status = 0
    ∧ SERVER_RUNNING ≠ 0 := by
  exact ⟨by decide, by decide⟩

/-- C7 (amended): `set_status M` followed by `clear_status M` restores the
pre-set status bitmask, provided no bit of M was already set in it (both
operands being 64-bit values); when a bit of M was already set, that bit is
lost (see the counterexample). -/
theorem claim_C7_status_roundtrip (st : ServerStatus) (bit : Nat)
    (hs : st.m_status < 2 ^ 64) (hb : bit < 2 ^ 64)
    (hclear : st.m_status &&& bit = 0) :
    (clear_status (set_status st bit) bit).m_status = st.m_status := by
  show (st.m_status ||| bit) &&& (MASK64 ^^^ bit) = st.m_status
  apply Nat.eq_of_testBit_eq
  intro i
  have hAB : ∀ j, ¬ (st.m_status.testBit j = true ∧ bit.testBit j = true) := by
    intro j hj
    have hz := congrArg (fun n => n.testBit j) hclear
    simp only [Nat.testBit_land, hj.1, hj.2, Nat.zero_testBit, Bool.and_self] at hz
    exact Bool.noConfusion hz
  by_cases hi : i < 64
  · have hm : (MASK64).testBit i = true := by
      show ((2 : Nat) ^ 64 - 1).testBit i = true
      rw [Nat.testBit_two_pow_sub_one]
      simp [hi]
    rw [Nat.testBit_land, Nat.testBit_lor, Nat.testBit_xor, hm]
    cases hbi : bit.testBit i with
    | false => cases hsi : st.m_status.testBit i <;> simp
    | true =>
      have hsf : st.m_status.testBit i = false := by
        cases hsi : st.m_status.testBit i
        · rfl
        · exact absurd ⟨hsi, hbi⟩ (hAB i)
      simp [hsf]
  · have h64 : (64 : Nat) ≤ i := Nat.le_of_not_lt hi
    have hs' : st.m_status.testBit i = false :=
      Nat.testBit_lt_two_pow (lt_of_lt_of_le hs (Nat.pow_le_pow_right (by norm_num) h64))
    have hb' : bit.testBit i = false :=
      Nat.testBit_lt_two_pow (lt_of_lt_of_le hb (Nat.pow_le_pow_right (by norm_num) h64))
    have hm : (MASK64).testBit i = false := by
      show ((2 : Nat) ^ 64 - 1).testBit i = false
      rw [Nat.testBit_two_pow_sub_one]
      simp [hi]
    rw [Nat.testBit_land, Nat.testBit_lor, Nat.testBit_xor, hm, hs', hb']
    rfl

/-- Witness for C7 at a concrete input: the master bit was clear in status 1
(running), so setting and clearing it restores status 1. -/
theorem claim_C7_status_roundtrip_witness :
    (clear_status (set_status ⟨SERVER_RUNNING, false⟩ SERVER_MASTER) SERVER_MASTER).m_status
      = SERVER_RUNNING :=
  claim_C7_status_roundtrip ⟨SERVER_RUNNING, false⟩ SERVER_MASTER
    (by norm_num [SERVER_RUNNING]) (by norm_num [SERVER_MASTER]) (by decide)

/-- C8 counterexample: clearing the master bit via `clear_status` leaves
`master_err_is_logged` set — the claim says it would be cleared. -/
theorem claim_C8_counterexample :
    (clear_status ⟨SERVER_MASTER ||| SERVER_RUNNING, true⟩ SERVER_MASTER).master_err_is_logged
      = true := rfl

/-- C8 (amended): `clear_status` never touches `master_err_is_logged`; it is
`set_status` that clears the flag, whenever the status resulting from the OR
satisfies `is_master` — i.e. the flag is reset when the master flag is set,
not when it is cleared. -/
theorem claim_C8_master_err_flag (st : ServerStatus) (bit : Nat) :
    (clear_status st bit).master_err_is_logged = st.master_err_is_logged
    ∧ (is_master (st.m_status ||| bit) = true →
        (set_status st bit).master_err_is_logged = false) := by
  refine ⟨rfl, fun h => ?_⟩
  simp [set_status, h]

/-- Witness for C8 at a concrete input: setting the master bit on a running
server with the flag set clears the flag. -/
theorem claim_C8_master_err_flag_witness :
    (set_status ⟨SERVER_RUNNING, true⟩ SERVER_MASTER).master_err_is_logged = false :=
  (claim_C8_master_err_flag ⟨SERVER_RUNNING, true⟩ SERVER_MASTER).2 (by decide)

/-- C2 counterexample: with current sample_max 5 and a batch of 5 samples
(so sample_count ≥ current sample_max), the new sample_max is
trunc(5 · 1.1) = 5 — equal to the old one, not a strict increase. -/
theorem claim_C2_counterexample :
    (5 : Int) ≥ 5 ∧ response_time_add 5 1 1 5 = 5 := by
  refine ⟨le_refl 5, ?_⟩
  unfold response_time_add double_to_int drift
  rw [if_pos (by norm_num : (5 : Int) ≥ 5),
      if_pos (by norm_num : (0 : ℚ) ≤ ((5 : Int) : ℚ) * (11 / 10))]
  norm_num

/-- C2 (amended): with a non-negative batch size and positive incoming
average, the new sample_max strictly increases when sample_count ≥ current
sample_max, provided additionally sample_count ≥ 10 or sample_count >
current sample_max (for sample_count = current sample_max < 10 the truncated
product sample_count · 1.1 equals sample_count, see the counterexample); and
when sample_count < current sample_max the new sample_max strictly
decreases — halved when the current EMA is more than 2× the incoming
average (the direction the code actually tests, not the claimed
incoming > 2× EMA), and divided by the drift constant 1.1 otherwise (the
slow decay). -/
theorem claim_C2_sample_max_adaptation (current_max num_samples : Int) (ema ave : ℚ)
    (hn : 0 ≤ num_samples) (hx : 0 < ave) :
    (current_max ≤ num_samples → (10 ≤ num_samples ∨ current_max < num_samples) →
      current_max < response_time_add current_max ema ave num_samples)
    ∧ (num_samples < current_max → 2 < ema / ave →
      response_time_add current_max ema ave num_samples < current_max)
    ∧ (num_samples < current_max → ¬ 2 < ema / ave →
      response_time_add current_max ema ave num_samples < current_max) := by
  refine ⟨fun hge hcase => ?_, fun hlt hgt => ?_, fun hlt hle => ?_⟩
  · unfold response_time_add double_to_int drift
    have hq : (0 : ℚ) ≤ (num_samples : ℚ) * (11 / 10) := by
      have hnn : (0 : ℚ) ≤ (num_samples : ℚ) := by exact_mod_cast hn
      linarith
    rw [if_pos hge, if_pos hq, Int.lt_iff_add_one_le, Int.le_floor]
    push_cast
    rcases hcase with h10 | hlt
    · have h10' : (10 : ℚ) ≤ (num_samples : ℚ) := by exact_mod_cast h10
      have hcm : (current_max : ℚ) ≤ (num_samples : ℚ) := by exact_mod_cast hge
      linarith
    · have hlt' : (current_max : ℚ) + 1 ≤ (num_samples : ℚ) := by
        have : current_max + 1 ≤ num_samples := hlt
        exact_mod_cast this
      have hnn : (0 : ℚ) ≤ (num_samples : ℚ) := by exact_mod_cast hn
      linarith
  · have hcm : (0 : ℚ) < (current_max : ℚ) := by
      have : (0 : Int) < current_max := by omega
      exact_mod_cast this
    unfold response_time_add double_to_int drift
    rw [if_neg (by omega : ¬ num_samples ≥ current_max), if_pos hgt,
        if_pos (by linarith : (0 : ℚ) ≤ (current_max : ℚ) * (1 / 2)), Int.floor_lt]
    linarith
  · have hcm : (0 : ℚ) < (current_max : ℚ) := by
      have : (0 : Int) < current_max := by omega
      exact_mod_cast this
    unfold response_time_add double_to_int drift
    rw [if_neg (by omega : ¬ num_samples ≥ current_max), if_neg hle,
        if_pos (div_nonneg (le_of_lt hcm) (by norm_num)), Int.floor_lt,
        div_lt_iff (by norm_num : (0 : ℚ) < 11 / 10)]
    linarith

/-- Witness for C2 at concrete inputs: a batch of 20 samples against current
sample_max 4 strictly raises the sample_max, and a batch of 4 samples
against current sample_max 10 with EMA 3 and incoming average 1 (EMA more
than 2× the incoming average) strictly lowers it. -/
theorem claim_C2_sample_max_adaptation_witness :
    (4 : Int) < response_time_add 4 1 1 20
    ∧ response_time_add 10 3 1 4 < 10 :=
  ⟨(claim_C2_sample_max_adaptation 4 20 1 1 (by norm_num) (by norm_num)).1
      (by norm_num) (Or.inl (by norm_num)),
   ((claim_C2_sample_max_adaptation 10 4 3 1 (by norm_num) (by norm_num)).2.1
      (by norm_num) (by norm_num))⟩

/-- C5 counterexample: on an empty filesystem, `serialize` with a failing
config write (`dprintf` returning -1, here `write_ok = false`) still returns
true — the write failure is logged but not reported to the caller, contrary
to the claim that every write failure makes the persistence call return
failure. -/
theorem claim_C5_counterexample :
    (serialize (fun _ => none) "/etc/b.cnf" "/etc/b.cnf.tmp" "[server]\n"
      true false true).1 = true := rfl

/-- C5 (amended): a temp-file unlink failure with an errno other than ENOENT
(modelled by the temp file existing while `unlink_ok` is false) and a rename
failure each make `serialize` return false; opening an already-existing path
makes `create_server_config` return false with the filesystem untouched; but
a failed config write (`dprintf` returning -1) is only logged —
`create_server_config` still returns true. Neither function reads or writes
the server's in-memory configuration; they only consume the generated
config text. -/
theorem claim_C5_serialization_failures (fs : String → Option String)
    (final_filename temp_filename config : String) (u w r : Bool) :
    ((fs temp_filename).isSome → u = false →
      serialize fs final_filename temp_filename config u w r = (false, fs))
    ∧ (r = false →
      (serialize fs final_filename temp_filename config u w r).1 = false)
    ∧ ((fs temp_filename).isSome →
      create_server_config fs temp_filename config w = (false, fs))
    ∧ (fs temp_filename = none →
      (create_server_config fs temp_filename config w).1 = true) := by
  refine ⟨fun hs hu => ?_, fun hr => ?_,
          fun hs => create_server_config_of_exists _ _ _ _ hs, fun hn => ?_⟩
  · unfold serialize
    rw [if_pos ⟨hs, by simp [hu]⟩]
  · unfold serialize
    by_cases hcond : (fs temp_filename).isSome ∧ ¬ u
    · rw [if_pos hcond]
    · rw [if_neg hcond]
      have hn1 : (fun p => if p = temp_filename then none else fs p) temp_filename
          = (none : Option String) := by simp
      rw [create_server_config_of_none _ _ _ _ hn1, hr]
      rfl
  · rw [create_server_config_of_none _ _ _ _ hn]

/-- Witness for C5 at a concrete input: a stale temp file exists and unlink
fails with a non-ENOENT errno, so `serialize` returns false and the
filesystem is untouched. -/
theorem claim_C5_serialization_failures_witness :
    serialize fsTmp "/etc/a.cnf" "/etc/a.cnf.tmp" "[server]\n" false true true
      = (false, fsTmp) :=
  (claim_C5_serialization_failures fsTmp "/etc/a.cnf" "/etc/a.cnf.tmp" "[server]\n"
    false true true).1 rfl rfl
